import Mathlib

/-!
# SafeSpace chatbot response pipeline — shallow embedding

A shallow embedding of the response-generation pipeline of `src/app.py`
(`MentalHealthTools`, `EnhancedGraph`, `parse_response`, `get_ai_response`),
together with theorems settling the frozen claims about it.

Modelling conventions:
* Python strings are Lean `String`s; `str.lower()` is modelled ASCII-wise by
  `Char.toLower` (all pattern tables are ASCII).
* `re.search` with the word-boundary patterns of `detect_crisis` is modelled by
  an explicit bounded-occurrence search (`wbSearch`); every alternative in the
  source patterns begins and ends with a word character, so a `\b` boundary
  amounts to "the neighbouring character, if any, is not a word character".
  The `.*` in the instrument/intent pattern does not cross a newline, which
  `wbSearchSameLine` reflects.
* The network is modelled by a script `List ApiOutcome`: the k-th performed
  attempt observes the k-th element.  The retry loop records a trace of
  `AttemptEvent`s (attempts performed and back-off sleeps) so that retry
  policy claims are statements about the trace.
* Host-level UI calls (`st.error`, `st.warning`) are logging only and are
  dropped; the mutable `conversation_history` does not influence any output
  and is dropped as well.
* `EnhancedGraph.stream` is a generator that yields dictionaries; it is
  modelled as the list of yielded dictionaries.  The `inputs["messages"]`
  payload is modelled as the list of `(role, text)` pairs; an input list too
  short for `inputs["messages"][1][1]` raises `IndexError` in Python, which
  the blanket `except` of `stream` turns into the technical-fallback yield.
-/

set_option maxRecDepth 16384

namespace SafeSpace

/-! ## Small Python string primitives -/

/-- Characters stripped by Python `str.strip()` (ASCII whitespace). -/
def isPySpace (c : Char) : Bool :=
  c == ' ' || c == '\t' || c == '\n' || c == '\r' || c == '\x0b' || c == '\x0c'

/-- Python `str.strip()`. -/
def pyStrip (s : List Char) : List Char :=
  ((s.dropWhile isPySpace).reverse.dropWhile isPySpace).reverse

/-- Worker for `stripPat`.  Each step consumes at least one character, so a
fuel of `s.length` is enough and the `0` case is unreachable; the fuel only
makes the recursion structural (and hence kernel-computable). -/
def stripPatAux (pat : List Char) : Nat → List Char → List Char
  | _, [] => []
  | 0, s => s
  | fuel + 1, c :: rest =>
    if !pat.isEmpty && pat.isPrefixOf (c :: rest) then
      stripPatAux pat fuel (rest.drop (pat.length - 1))
    else
      c :: stripPatAux pat fuel rest

/-- Python `str.replace(pat, '')`: remove every (left-to-right, non-overlapping)
occurrence of `pat`. -/
def stripPat (pat : List Char) (s : List Char) : List Char :=
  stripPatAux pat s.length s

/-- Python `str.lower()` (ASCII model), returning the character list. -/
def lowerData (s : String) : List Char := s.data.map Char.toLower

/-- Python substring containment `needle in hay` over character lists. -/
def containsSub (needle : List Char) : List Char → Bool
  | [] => needle.isEmpty
  | c :: rest => needle.isPrefixOf (c :: rest) || containsSub needle rest

/-- Python `needle in hay` for a literal needle against lowered text. -/
def pyIn (needle : String) (hay : List Char) : Bool :=
  containsSub needle.data hay

/-- Python `sep.join(parts)`. -/
def pyJoin (sep : List Char) : List (List Char) → List Char
  | [] => []
  | [x] => x
  | x :: y :: rest => x ++ sep ++ pyJoin sep (y :: rest)

/-! ## Word-boundary regex model for `detect_crisis` -/

/-- Regex `\w` (ASCII model). -/
def isWordChar (c : Char) : Bool := c.isAlphanum || c == '_'

/-- The phrase occurs at the head of `text`, with `prev` the character
immediately before that position (`none` at the start of the string), and
regex `\b` boundaries on both sides.  All phrases used begin and end with a
word character, so each boundary is "neighbour absent or not a word char". -/
def boundedAt (phrase : List Char) (prev : Option Char) (text : List Char) : Bool :=
  phrase.isPrefixOf text &&
    (match prev with
     | none => true
     | some c => !isWordChar c) &&
    (match text.drop phrase.length with
     | [] => true
     | c :: _ => !isWordChar c)

/-- `re.search(r'\b(phrase)\b', …)`: a bounded occurrence at some position. -/
def wbSearch (phrase : List Char) : Option Char → List Char → Bool
  | prev, [] => boundedAt phrase prev []
  | prev, c :: rest => boundedAt phrase prev (c :: rest) || wbSearch phrase (some c) rest

/-- Bounded occurrence at some position of the current line: the search does
not advance past a newline, because `.*` in the source pattern cannot match
`'\n'`. -/
def wbSearchSameLine (phrase : List Char) : Option Char → List Char → Bool
  | _, [] => false
  | prev, c :: rest =>
    boundedAt phrase prev (c :: rest) ||
      (c != '\n' && wbSearchSameLine phrase (some c) rest)

/-- Instrument words of crisis pattern 4. -/
def instruments : List String := ["gun", "knife", "rope", "bridge", "jump"]

/-- Intent verbs of crisis pattern 4. -/
def endVerbs : List String := ["end", "die", "kill"]

/-- Pattern `\b(gun|knife|rope|bridge|jump)\b.*\b(end|die|kill)\b` matching at
the current position: a bounded instrument here, then a bounded intent verb
later on the same line. -/
def methodThenIntentAt (prev : Option Char) (text : List Char) : Bool :=
  instruments.any fun ins =>
    boundedAt ins.data prev text &&
      endVerbs.any fun v =>
        wbSearchSameLine v.data (some (ins.data.getLastD ' ')) (text.drop ins.data.length)

/-- `re.search` for crisis pattern 4: the above at some position. -/
def methodThenIntentSearch : Option Char → List Char → Bool
  | _, [] => false
  | prev, c :: rest =>
    methodThenIntentAt prev (c :: rest) || methodThenIntentSearch (some c) rest

/-! ## `MentalHealthTools` -/

/-- Alternatives of crisis pattern 1. -/
def crisisPat1 : List String :=
  ["suicide", "kill myself", "end it all", "want to die", "not worth living"]

/-- Alternatives of crisis pattern 2. -/
def crisisPat2 : List String :=
  ["harm myself", "hurt myself", "self harm", "cut myself"]

/-- Alternatives of crisis pattern 3. -/
def crisisPat3 : List String :=
  ["overdose", "pills to die", "end my life"]

/-- Alternatives of crisis pattern 5 (`can\'?t` yields two literal variants). -/
def crisisPat5 : List String :=
  ["no point", "give up", "cant go on", "can\x27t go on", "hopeless"]

/-- Alternatives of crisis pattern 6. -/
def crisisPat6 : List String :=
  ["better off dead", "world without me"]

/-- Some alternative of the group occurs word-bounded in the text. -/
def anyBounded (phrases : List String) (text : List Char) : Bool :=
  phrases.any fun p => wbSearch p.data none text

/-- `MentalHealthTools.detect_crisis`: lower-case the message and test the six
crisis regular expressions (`any` over the patterns). -/
def detect_crisis (message : String) : Bool :=
  anyBounded crisisPat1 (lowerData message) ||
  anyBounded crisisPat2 (lowerData message) ||
  anyBounded crisisPat3 (lowerData message) ||
  methodThenIntentSearch none (lowerData message) ||
  anyBounded crisisPat5 (lowerData message) ||
  anyBounded crisisPat6 (lowerData message)

/-- The `emotion_keywords` dict of `detect_emotions`, in insertion order. -/
def emotion_keywords : List (String × List String) :=
  [("anxiety", ["anxious", "worried", "nervous", "panic", "fear", "scared", "terrified",
      "petrified"]),
   ("depression", ["sad", "depressed", "hopeless", "empty", "worthless", "tired", "numb",
      "hollow"]),
   ("anger", ["angry", "mad", "frustrated", "furious", "rage", "irritated", "livid",
      "enraged"]),
   ("stress", ["stressed", "overwhelmed", "pressure", "burden", "exhausted", "burned out",
      "swamped"]),
   ("loneliness", ["lonely", "alone", "isolated", "disconnected", "abandoned", "forgotten",
      "excluded"]),
   ("grief", ["grieving", "mourning", "loss", "bereaved", "heartbroken", "devastated"]),
   ("confusion", ["confused", "lost", "uncertain", "directionless", "unclear", "mixed up"])]

/-- `MentalHealthTools.detect_emotions`: every emotion whose keyword list has a
substring hit in the lowered message, in dict insertion order. -/
def detect_emotions (message : String) : List String :=
  (emotion_keywords.filter fun p => p.2.any fun k => pyIn k (lowerData message)).map
    fun p => p.1

/-- The `strategies` dict of `get_coping_strategies`, in insertion order. -/
def strategies : List (String × String) :=
  [("anxiety", "Try the 4-7-8 breathing technique: inhale for 4, hold for 7, exhale for 8. Use the 5-4-3-2-1 grounding method: name 5 things you see, 4 you hear, 3 you touch, 2 you smell, 1 you taste."),
   ("depression", "Small steps count. Try the \x27one tiny thing\x27 approach - do just one small positive action today. Consider sunlight exposure, gentle movement, or connecting with someone who cares about you."),
   ("anger", "Use the STOP technique: Stop what you\x27re doing, Take a deep breath, Observe your feelings, Proceed mindfully. Try the 6-second rule - strong emotions peak and start to fade after 6 seconds."),
   ("stress", "Try the HALT check: are you Hungry, Angry, Lonely, or Tired? Address basic needs first. Use the 2-minute rule: if it takes less than 2 minutes, do it now to reduce mental load."),
   ("loneliness", "Reach out with a \x27thinking of you\x27 message to someone. Join online communities, volunteer virtually, or try co-working spaces. Remember: loneliness is temporary."),
   ("grief", "Allow yourself to feel. Grief comes in waves - that\x27s normal. Create a small ritual to honor what you\x27ve lost. Consider grief support groups or counseling."),
   ("confusion", "Write down what you know for sure, then what you\x27re uncertain about. Break big decisions into smaller steps. It\x27s okay not to have all the answers right now.")]

/-- Python `strategies.get(e)` restricted to present keys (`e in strategies`
is `(strategies_lookup e).isSome`). -/
def strategies_lookup (e : String) : Option String :=
  (strategies.find? fun p => p.1 == e).map fun p => p.2

/-- The fixed generic self-care sentence of `get_coping_strategies`. -/
def generic_self_care : String :=
  "Practice self-compassion today. Treat yourself with the same kindness you\x27d show a good friend."

/-- `MentalHealthTools.get_coping_strategies`: the generic sentence on the
empty list; otherwise the space-join of the looked-up strategy texts of the
labels present in the catalog, in input-list order (`filter(None, …)` drops
empty entries, of which there are none for catalog keys). -/
def get_coping_strategies (emotions : List String) : String :=
  if emotions.isEmpty then
    generic_self_care
  else
    String.mk (pyJoin " ".data
      ((((emotions.filter fun e => (strategies_lookup e).isSome).map
          fun e => (strategies_lookup e).getD "").filter
            fun s => !s.isEmpty).map String.data))

/-! ## Result dictionaries of `EnhancedGraph` -/

/-- The `{'response': …, 'tool': …}` dictionaries the pipeline yields. -/
structure ResponseDict where
  response : String
  tool : String
deriving DecidableEq

/-- `EnhancedGraph._handle_crisis`: the fixed crisis-intervention reply. -/
def handle_crisis : ResponseDict :=
  { response := "🆘 **I\x27m very concerned about what you\x27re sharing. Your life has value and there are people who want to help.**\n\n**🇮🇳 Immediate Support in India:**\n• **Call 9152987821** - AASRA Suicide Prevention (24/7)\n• **Call 1860-266-2345** - Vandrevala Foundation (24/7, free)\n• **Call 1800-599-0019** - Kiran Mental Health Helpline\n• **WhatsApp +91 9820466726** - Connecting NGO\n\n**🌍 International:**\n• **Call 988** - US Suicide & Crisis Lifeline\n• **Text HELLO to 741741** - Crisis Text Line\n\n🌟 **You are not alone.** Professional counselors are available right now to talk with you.\n\nWould you like to talk about what\x27s bringing up these feelings? I\x27m here to listen without judgment.",
    tool := "crisis_intervention" }

/-- `EnhancedGraph._fallback_response`: the technical-fallback reply. -/
def fallback_response : ResponseDict :=
  { response := "I\x27m here to listen and support you. Even when technology has hiccups, my commitment to being here for you remains constant. How are you feeling right now? What\x27s on your mind?",
    tool := "technical_fallback" }

/-! ## `_call_huggingface_api`: external generation with retries -/

/-- The observable behaviour of one HTTP attempt.  `httpOk g` is a 200 reply
whose payload either is malformed (`none`: not a non-empty JSON list) or
carries the string of the `generated_text` field; `http code` is any non-200
status; `timeout` is `requests.exceptions.Timeout`; `exn` is any other
exception escaping the request/parsing code. -/
inductive ApiOutcome where
  | httpOk (genText : Option String)
  | http (code : Nat)
  | timeout
  | exn
deriving DecidableEq

/-- Trace entries of a `_call_huggingface_api` run: attempts performed and
`time.sleep` back-offs (in seconds). -/
inductive AttemptEvent where
  | attempt (o : ApiOutcome)
  | sleep (secs : Nat)
deriving DecidableEq

/-- The therapeutic prompt built inside the retry loop. -/
def buildPrompt (message : String) : String :=
  "You are a supportive mental health counselor. Respond with empathy and care.\nUser: " ++
    message ++ "\nCounselor:"

/-- `generated_text.strip()` then `.replace(prompt, '').strip()`. -/
def cleanGenerated (prompt : String) (raw : String) : List Char :=
  pyStrip (stripPat prompt.data (pyStrip raw.data))

/-- The acceptance gate `if generated_text and len(generated_text) > 10`. -/
def usableText (prompt : String) (raw : String) : Bool :=
  !(cleanGenerated prompt raw).isEmpty && decide ((cleanGenerated prompt raw).length > 10)

/-- The `for attempt in range(retries + 1)` loop of `_call_huggingface_api`.
`k` is the current attempt index, `r` the `retries` argument; the k-th
performed attempt observes the k-th entry of the outcome script.  Returns the
event trace and the returned text (`[]` for the empty string). -/
def callAux (prompt : String) (r : Nat) : Nat → List ApiOutcome → List AttemptEvent × List Char
  | _, [] => ([], [])
  | k, o :: rest =>
    match o with
    | .httpOk g =>
      match g with
      | some raw =>
        if usableText prompt raw then
          ([.attempt o], cleanGenerated prompt raw)
        else if k < r then
          let rec' := callAux prompt r (k + 1) rest
          (.attempt o :: rec'.1, rec'.2)
        else ([.attempt o], [])
      | none =>
        if k < r then
          let rec' := callAux prompt r (k + 1) rest
          (.attempt o :: rec'.1, rec'.2)
        else ([.attempt o], [])
    | .http code =>
      if code == 503 then
        if k < r then
          let rec' := callAux prompt r (k + 1) rest
          (.attempt o :: .sleep 3 :: rec'.1, rec'.2)
        else ([.attempt o], [])
      else ([.attempt o], [])
    | .timeout =>
      if k < r then
        let rec' := callAux prompt r (k + 1) rest
        (.attempt o :: .sleep 1 :: rec'.1, rec'.2)
      else ([.attempt o], [])
    | .exn =>
      if k < r then
        let rec' := callAux prompt r (k + 1) rest
        (.attempt o :: .sleep 1 :: rec'.1, rec'.2)
      else ([.attempt o], [])

/-- `EnhancedGraph._call_huggingface_api` with its default `retries = 2`:
empty result without any attempt when no token is configured, otherwise the
retry loop. -/
def call_huggingface_api (token : Bool) (message : String) (outcomes : List ApiOutcome) :
    List AttemptEvent × String :=
  if token then
    let r := callAux (buildPrompt message) 2 0 outcomes
    (r.1, String.mk r.2)
  else ([], "")

/-- Number of attempts recorded in a trace. -/
def attemptCount (es : List AttemptEvent) : Nat :=
  (es.filter fun e => match e with | .attempt _ => true | .sleep _ => false).length

/-- The outcomes of the attempts recorded in a trace, in order. -/
def attemptOutcomes (es : List AttemptEvent) : List ApiOutcome :=
  es.filterMap fun e => match e with | .attempt o => some o | .sleep _ => none

/-- Outcomes after which the source loop proceeds to a further attempt when
budget remains: timeout, 503, any unexpected exception, and a 200 reply with a
malformed payload or unusable text. -/
def retriable (prompt : String) (o : ApiOutcome) : Bool :=
  match o with
  | .timeout => true
  | .exn => true
  | .http code => code == 503
  | .httpOk none => true
  | .httpOk (some raw) => !usableText prompt raw

/-! ## `EnhancedGraph` response assembly -/

/-- `EnhancedGraph._enhance_response`. -/
def enhance_response (base : String) (emotions : List String) : String :=
  if emotions.isEmpty then base
  else
    if !(get_coping_strategies emotions).isEmpty then
      base ++ "\n\n💡 **For " ++ String.intercalate ", " emotions ++ ":** " ++
        get_coping_strategies emotions
    else base

/-- Greeting substrings of `_rule_based_response`. -/
def greetings : List String :=
  ["hello", "hi", "hey", "good morning", "good afternoon", "good evening", "start",
   "beginning"]

/-- Anxiety trigger words of `_rule_based_response`. -/
def anxietyWords : List String := ["anxious", "worried", "panic", "scared"]

/-- Depression trigger words of `_rule_based_response`. -/
def depressionWords : List String := ["sad", "depressed", "hopeless", "empty", "worthless"]

/-- Stress trigger words of `_rule_based_response`. -/
def stressWords : List String := ["stressed", "overwhelmed", "pressure", "burned", "exhausted"]

/-- Loneliness trigger words of `_rule_based_response`. -/
def lonelinessWords : List String := ["lonely", "alone", "isolated", "disconnected"]

/-- Gratitude trigger words of `_rule_based_response`. -/
def gratitudeWords : List String := ["thank", "thanks", "grateful", "appreciate"]

/-- Check-in trigger phrases of `_rule_based_response`. -/
def checkinPhrases : List String := ["how are you", "are you okay", "how do you feel"]

/-- The warm-greeting reply. -/
def greetingResponse : ResponseDict :=
  { response := "Hello and welcome to SafeSpace! 🌟 I\x27m here to listen without judgment and support you through whatever you\x27re experiencing. How are you feeling today? Take your time - there\x27s no pressure to share more than you\x27re comfortable with.",
    tool := "warm_greeting" }

/-- The anxiety-support reply (pre-combined with the anxiety coping text). -/
def anxietyResponse : ResponseDict :=
  { response := "I can hear the anxiety in your words, and I want you to know that what you\x27re feeling is real and valid. Anxiety can feel overwhelming, but you\x27re not alone in this experience." ++
      "\n\n🫁 **Try this breathing technique:** " ++ get_coping_strategies ["anxiety"],
    tool := "anxiety_support" }

/-- The depression-support reply. -/
def depressionResponse : ResponseDict :=
  { response := "I hear the pain in your words, and I want you to know that your feelings are completely valid. Depression can make everything feel heavy and difficult, but please know that you matter and you\x27re not alone." ++
      "\n\n💙 **Gentle reminder:** " ++ get_coping_strategies ["depression"],
    tool := "depression_support" }

/-- The stress-management reply. -/
def stressResponse : ResponseDict :=
  { response := "It sounds like you\x27re carrying a heavy load right now. Feeling stressed and overwhelmed is exhausting, and it takes real strength to reach out for support." ++
      "\n\n🌱 **Stress relief technique:** " ++ get_coping_strategies ["stress"],
    tool := "stress_management" }

/-- The loneliness-support reply. -/
def lonelinessResponse : ResponseDict :=
  { response := "Loneliness can feel so painful and isolating. I want you to know that reaching out here shows incredible courage, and you\x27re taking a step toward connection right now." ++
      "\n\n🤝 **Connection idea:** " ++ get_coping_strategies ["loneliness"],
    tool := "loneliness_support" }

/-- The gratitude reply. -/
def gratitudeResponse : ResponseDict :=
  { response := "You\x27re so welcome. 💛 It takes real courage to reach out and talk about these things. I\x27m honored that you chose to share with me. Remember, seeking support is a sign of strength, not weakness. How else can I support you today?",
    tool := "gratitude_response" }

/-- The check-in redirect reply. -/
def checkinResponse : ResponseDict :=
  { response := "Thank you for asking! As an AI, I don\x27t have feelings, but I\x27m here and fully focused on you. What matters most right now is how *you* are doing. I\x27m ready to listen to whatever you\x27d like to share.",
    tool := "check_in_redirect" }

/-- The default empathetic-listening reply, with the emotion acknowledgment
prefix when emotions were detected. -/
def default_response (emotions : List String) : ResponseDict :=
  { response :=
      (if !emotions.isEmpty then
        "I can sense you might be feeling " ++ String.intercalate ", " emotions ++
          ", and I want you to know those feelings are completely valid. "
      else "") ++
      "I\x27m here to listen and support you through whatever you\x27re experiencing. Sometimes it helps to talk through what\x27s on your mind. What would you like to share with me? Remember, you can share as much or as little as feels comfortable.",
    tool := "empathetic_listening" }

/-- Greeting test of the fallback tree:
`any(greeting in message_lower for greeting in greetings)`. -/
def greetingCond (message : String) : Bool :=
  greetings.any fun g => pyIn g (lowerData message)

/-- Anxiety branch test: `'anxiety' in emotions or any(word in message_lower …)`. -/
def anxietyCond (message : String) (emotions : List String) : Bool :=
  emotions.contains "anxiety" || anxietyWords.any fun w => pyIn w (lowerData message)

/-- Depression branch test. -/
def depressionCond (message : String) (emotions : List String) : Bool :=
  emotions.contains "depression" || depressionWords.any fun w => pyIn w (lowerData message)

/-- Stress branch test. -/
def stressCond (message : String) (emotions : List String) : Bool :=
  emotions.contains "stress" || stressWords.any fun w => pyIn w (lowerData message)

/-- Loneliness branch test. -/
def lonelinessCond (message : String) (emotions : List String) : Bool :=
  emotions.contains "loneliness" || lonelinessWords.any fun w => pyIn w (lowerData message)

/-- Gratitude branch test. -/
def gratitudeCond (message : String) : Bool :=
  gratitudeWords.any fun w => pyIn w (lowerData message)

/-- Check-in branch test. -/
def checkinCond (message : String) : Bool :=
  checkinPhrases.any fun w => pyIn w (lowerData message)

/-- `EnhancedGraph._rule_based_response`: the ordered fallback tree.  The
source lower-cases the message once into `message_lower`; the lowering is
inlined into the named branch tests here. -/
def rule_based_response (message : String) (emotions : List String) : ResponseDict :=
  if greetingCond message then greetingResponse
  else if anxietyCond message emotions then anxietyResponse
  else if depressionCond message emotions then depressionResponse
  else if stressCond message emotions then stressResponse
  else if lonelinessCond message emotions then lonelinessResponse
  else if gratitudeCond message then gratitudeResponse
  else if checkinCond message then checkinResponse
  else default_response emotions

/-- `EnhancedGraph._generate_response`: try the external call when a token is
configured and the reply is non-empty, otherwise the rule-based tree. -/
def generate_response (token : Bool) (outcomes : List ApiOutcome) (message : String)
    (emotions : List String) : ResponseDict :=
  if token then
    if !(call_huggingface_api token message outcomes).2.isEmpty then
      { response := enhance_response (call_huggingface_api token message outcomes).2 emotions,
        tool := "ai_therapy_conversation" }
    else rule_based_response message emotions
  else rule_based_response message emotions

/-- `EnhancedGraph.stream`: the list of dictionaries the generator yields.
A shape too short for `inputs["messages"][1][1]` raises, which the blanket
`except` turns into the technical fallback; a crisis message short-circuits
before emotion detection and generation. -/
def stream (token : Bool) (outcomes : List ApiOutcome) (inputs : List (String × String)) :
    List ResponseDict :=
  match inputs with
  | _ :: m :: _ =>
    if detect_crisis m.2 then [handle_crisis]
    else [generate_response token outcomes m.2 (detect_emotions m.2)]
  | _ => [fallback_response]

/-- `parse_response`: first yielded dictionary, or the StopIteration reply. -/
def parse_response (s : List ResponseDict) : String × String :=
  match s with
  | [] => ("error",
      "I\x27m having trouble processing that right now, but I\x27m still here to listen and support you.")
  | r :: _ => (r.tool, r.response)

/-- The module-level `SYSTEM_PROMPT`. -/
def SYSTEM_PROMPT : String :=
  "You are SafeSpace, a compassionate AI mental health supporter. Your role is to:\n- Provide empathetic, non-judgmental support\n- Use active listening techniques\n- Offer coping strategies and resources\n- Recognize when professional help is needed\n- Maintain appropriate boundaries as an AI assistant\n\nRemember: You are not a replacement for professional therapy, but a supportive companion."

/-- `get_ai_response`: build the inputs, run the stream, parse, and return
`(response, tool, status)`; the non-exceptional path always reports
`"success"`. -/
def get_ai_response (token : Bool) (outcomes : List ApiOutcome) (user_message : String) :
    String × String × String :=
  ((parse_response (stream token outcomes
      [("system", SYSTEM_PROMPT), ("user", user_message)])).2,
   (parse_response (stream token outcomes
      [("system", SYSTEM_PROMPT), ("user", user_message)])).1,
   "success")

/-! ## Spec-side definitions for refinement comparisons -/

/-- A category of the fallback tree as the spec describes it: an applicability
test over the message and detected emotions, and the fixed reply it
supplies. -/
structure FallbackCategory where
  applies : String → List String → Bool
  result : ResponseDict

/-- The ordered category list of the spec for the fallback tree: greeting,
then anxiety, depression, stress, loneliness, then gratitude, then check-in
(the default empathetic reply is the no-match case). -/
def fallback_categories : List FallbackCategory :=
  [⟨fun m _ => greetingCond m, greetingResponse⟩,
   ⟨fun m em => anxietyCond m em, anxietyResponse⟩,
   ⟨fun m em => depressionCond m em, depressionResponse⟩,
   ⟨fun m em => stressCond m em, stressResponse⟩,
   ⟨fun m em => lonelinessCond m em, lonelinessResponse⟩,
   ⟨fun m _ => gratitudeCond m, gratitudeResponse⟩,
   ⟨fun m _ => checkinCond m, checkinResponse⟩]

/-- First-match-wins evaluation of the spec category list: the first category
whose test fires supplies both response text and tool tag, with the default
empathetic-listening reply when none fires. -/
def fallback_spec (m : String) (em : List String) : ResponseDict :=
  match fallback_categories.find? fun c => c.applies m em with
  | some c => c.result
  | none => default_response em

/-- The spec wording of `CopingAdvisor.advise` on a non-empty label set:
space-join the technique texts in catalog order, skipping labels absent from
the catalog. -/
def advise_spec (emotions : List String) : String :=
  if emotions.isEmpty then generic_self_care
  else
    String.mk (pyJoin " ".data
      (((strategies.filter fun p => emotions.contains p.1).map fun p => p.2).map
        String.data))

/-! ## Helper lemmas -/

theorem str_ne_empty_of_data {s : String} (h : s.data ≠ []) : s ≠ "" := by
  intro hs
  exact h (by simp [hs])

theorem append_ne_empty_left {s : String} (h : s ≠ "") (t : String) : s ++ t ≠ "" := by
  intro he
  have hd : s.data ++ t.data = [] := by
    simpa [String.data_append] using congrArg String.data he
  exact h (String.ext (by simpa using (List.append_eq_nil.mp hd).1))

theorem append_ne_empty_right (s : String) {t : String} (h : t ≠ "") : s ++ t ≠ "" := by
  intro he
  have hd : s.data ++ t.data = [] := by
    simpa [String.data_append] using congrArg String.data he
  exact h (String.ext (by simpa using (List.append_eq_nil.mp hd).2))

theorem rule_based_response_ne_empty (m : String) (em : List String) :
    (rule_based_response m em).response ≠ "" := by
  unfold rule_based_response
  split_ifs <;>
    first
      | decide
      | exact append_ne_empty_right _ (by decide)

theorem enhance_response_ne_empty {base : String} (h : base ≠ "") (em : List String) :
    enhance_response base em ≠ "" := by
  unfold enhance_response
  split_ifs <;>
    first
      | exact h
      | exact append_ne_empty_left (append_ne_empty_left (append_ne_empty_left
          (append_ne_empty_left h _) _) _) _

theorem generate_response_ne_empty (token : Bool) (outcomes : List ApiOutcome) (m : String)
    (em : List String) : (generate_response token outcomes m em).response ≠ "" := by
  unfold generate_response
  split_ifs with h1 h2
  · refine enhance_response_ne_empty (fun he => ?_) em
    rw [he] at h2
    exact absurd h2 (by decide)
  · exact rule_based_response_ne_empty m em
  · exact rule_based_response_ne_empty m em

theorem rule_based_response_tool_ne_error (m : String) (em : List String) :
    (rule_based_response m em).tool ≠ "error" := by
  unfold rule_based_response
  split_ifs <;>
    first
      | decide
      | exact (by decide : ("empathetic_listening" : String) ≠ "error")

theorem generate_response_tool_ne_error (token : Bool) (outcomes : List ApiOutcome)
    (m : String) (em : List String) : (generate_response token outcomes m em).tool ≠ "error" := by
  unfold generate_response
  split_ifs <;>
    first
      | exact (by decide : ("ai_therapy_conversation" : String) ≠ "error")
      | exact rule_based_response_tool_ne_error m em

/-! ## Claims -/

/-- C1: for every message on which `detect_crisis` returns true, the pipeline
returns tool `crisis_intervention` with a status other than `error`, and the
response is exactly the fixed crisis reply (hence never combined with any
emotion-based coping text); the result does not depend on the generation
script, reflecting that the crisis branch short-circuits before emotion
classification and generation. -/
theorem crisis_short_circuits (token : Bool) (outcomes : List ApiOutcome) (m : String)
    (h : detect_crisis m = true) :
    (get_ai_response token outcomes m).2.1 = "crisis_intervention" ∧
    (get_ai_response token outcomes m).2.2 ≠ "error" ∧
    (get_ai_response token outcomes m).1 = handle_crisis.response := by
  unfold get_ai_response
  simp [stream, parse_response, h]
  decide

/-- Witness for C1 at the concrete crisis message of spec scenario A. -/
theorem crisis_short_circuits_witness :
    detect_crisis "I want to kill myself" = true ∧
    (get_ai_response true [.timeout] "I want to kill myself").2.1 = "crisis_intervention" ∧
    (get_ai_response true [.timeout] "I want to kill myself").2.2 ≠ "error" ∧
    (get_ai_response true [.timeout] "I want to kill myself").1 = handle_crisis.response :=
  ⟨by decide,
   (crisis_short_circuits true [.timeout] "I want to kill myself" (by decide)).1,
   (crisis_short_circuits true [.timeout] "I want to kill myself" (by decide)).2.1,
   (crisis_short_circuits true [.timeout] "I want to kill myself" (by decide)).2.2⟩

/-- C2: for every input text (empty, long, punctuation-only alike) and every
behaviour of the external service, the pipeline — which is total by
construction, all exception paths resolving to fixed replies — returns a
non-empty response string. -/
theorem process_response_never_empty (token : Bool) (outcomes : List ApiOutcome)
    (m : String) : (get_ai_response token outcomes m).1 ≠ "" := by
  unfold get_ai_response
  by_cases h : detect_crisis m = true
  · simp [stream, parse_response, h]
    decide
  · simp only [Bool.not_eq_true] at h
    simp [stream, parse_response, h]
    exact generate_response_ne_empty token outcomes m (detect_emotions m)

/-- C7 (amended): the non-exceptional pipeline always reports status
`success`; in particular a degraded-mode run (no credential, or every
external attempt failing) is not distinguished by any `degraded` status. -/
theorem status_always_success (token : Bool) (outcomes : List ApiOutcome) (m : String) :
    (get_ai_response token outcomes m).2.2 = "success" := rfl

/-- Counterexample to C7 as stated: with no external credential configured
(degraded mode), the returned status is `success`, not `degraded`. -/
theorem degraded_mode_status_counterexample :
    (get_ai_response false [] "hello").2.2 = "success" ∧
    (get_ai_response false [] "hello").2.2 ≠ "degraded" := by decide

/-- C10: for every input shape — including malformed ones whose extraction
raises inside the generator — `stream` yields exactly one dictionary, so
`parse_response` reads that dictionary and its StopIteration branch (tool
`error`) is unreachable. -/
theorem stream_yields_exactly_one (token : Bool) (outcomes : List ApiOutcome)
    (inputs : List (String × String)) :
    ∃ r, stream token outcomes inputs = [r] ∧
      parse_response (stream token outcomes inputs) = (r.tool, r.response) ∧
      r.tool ≠ "error" := by
  match inputs with
  | [] => exact ⟨fallback_response, rfl, rfl, by decide⟩
  | [a] => exact ⟨fallback_response, rfl, rfl, by decide⟩
  | a :: b :: rest =>
    by_cases h : detect_crisis b.2 = true
    · refine ⟨handle_crisis, ?_, ?_, by decide⟩ <;> simp [stream, parse_response, h]
    · simp only [Bool.not_eq_true] at h
      refine ⟨generate_response token outcomes b.2 (detect_emotions b.2), ?_, ?_, ?_⟩
      · simp [stream, h]
      · simp [stream, parse_response, h]
      · exact generate_response_tool_ne_error token outcomes b.2 (detect_emotions b.2)

theorem dropLast_cons_mem {α : Type} {o' x : α} {l : List α}
    (h : o' ∈ (x :: l).dropLast) : o' = x ∨ o' ∈ l.dropLast := by
  cases l with
  | nil => simp at h
  | cons y ys =>
    rw [List.dropLast_cons₂] at h
    exact List.mem_cons.mp h

theorem callAux_attemptCount_le (prompt : String) (r : Nat) (os : List ApiOutcome) :
    ∀ k, k ≤ r → attemptCount (callAux prompt r k os).1 ≤ r + 1 - k := by
  induction os with
  | nil => intro k _; simp [callAux, attemptCount]
  | cons o rest ih =>
    intro k hk
    have hcount : ∀ es, attemptCount (AttemptEvent.attempt o :: es) = attemptCount es + 1 := by
      intro es; simp [attemptCount, List.filter]
    have hsleep : ∀ n es, attemptCount (AttemptEvent.sleep n :: es) = attemptCount es := by
      intro n es; simp [attemptCount, List.filter]
    have hone : attemptCount [AttemptEvent.attempt o] = 1 := by
      simp [attemptCount, List.filter]
    cases o with
    | httpOk g =>
      cases g with
      | some raw =>
        by_cases hu : usableText prompt raw = true
        · simp [callAux, hu, hone]
          omega
        · by_cases hkr : k < r
          · simp only [callAux, hu, hkr, Bool.false_eq_true, if_false, if_true, hcount]
            have := ih (k + 1) (by omega)
            omega
          · simp [callAux, hu, hkr, hone]
            omega
      | none =>
        by_cases hkr : k < r
        · simp only [callAux, hkr, if_true, hcount]
          have := ih (k + 1) (by omega)
          omega
        · simp [callAux, hkr, hone]
          omega
    | http code =>
      by_cases hc : (code == 503) = true
      · by_cases hkr : k < r
        · simp only [callAux, hc, hkr, if_true, hcount, hsleep]
          have := ih (k + 1) (by omega)
          omega
        · simp [callAux, hc, hkr, hone]
          omega
      · simp [callAux, hc, hone]
        omega
    | timeout =>
      by_cases hkr : k < r
      · simp only [callAux, hkr, if_true, hcount, hsleep]
        have := ih (k + 1) (by omega)
        omega
      · simp [callAux, hkr, hone]
        omega
    | exn =>
      by_cases hkr : k < r
      · simp only [callAux, hkr, if_true, hcount, hsleep]
        have := ih (k + 1) (by omega)
        omega
      · simp [callAux, hkr, hone]
        omega

theorem callAux_dropLast_retriable (prompt : String) (r : Nat) (os : List ApiOutcome) :
    ∀ k, ∀ o' ∈ (attemptOutcomes (callAux prompt r k os).1).dropLast,
      retriable prompt o' = true := by
  induction os with
  | nil => intro k o' h; simp [callAux, attemptOutcomes] at h
  | cons o rest ih =>
    intro k o' h
    have houts : ∀ es, attemptOutcomes (AttemptEvent.attempt o :: es) = o :: attemptOutcomes es := by
      intro es; simp [attemptOutcomes, List.filterMap]
    have hsleep : ∀ n es, attemptOutcomes (AttemptEvent.sleep n :: es) = attemptOutcomes es := by
      intro n es; simp [attemptOutcomes, List.filterMap]
    have hsingle : attemptOutcomes [AttemptEvent.attempt o] = [o] := by
      simp [attemptOutcomes, List.filterMap]
    cases o with
    | httpOk g =>
      cases g with
      | some raw =>
        by_cases hu : usableText prompt raw = true
        · rw [show (callAux prompt r k (ApiOutcome.httpOk (some raw) :: rest)) =
              ([.attempt (.httpOk (some raw))], cleanGenerated prompt raw) by
                simp [callAux, hu]] at h
          simp [hsingle] at h
        · by_cases hkr : k < r
          · rw [show (callAux prompt r k (ApiOutcome.httpOk (some raw) :: rest)).1 =
                .attempt (.httpOk (some raw)) :: (callAux prompt r (k + 1) rest).1 by
                  simp [callAux, hu, hkr]] at h
            rw [houts] at h
            rcases dropLast_cons_mem h with he | hm
            · subst he; simp [retriable, hu]
            · exact ih (k + 1) o' hm
          · rw [show (callAux prompt r k (ApiOutcome.httpOk (some raw) :: rest)).1 =
                [.attempt (.httpOk (some raw))] by simp [callAux, hu, hkr]] at h
            simp [hsingle] at h
      | none =>
        by_cases hkr : k < r
        · rw [show (callAux prompt r k (ApiOutcome.httpOk none :: rest)).1 =
              .attempt (.httpOk none) :: (callAux prompt r (k + 1) rest).1 by
                simp [callAux, hkr]] at h
          rw [houts] at h
          rcases dropLast_cons_mem h with he | hm
          · subst he; simp [retriable]
          · exact ih (k + 1) o' hm
        · rw [show (callAux prompt r k (ApiOutcome.httpOk none :: rest)).1 =
              [.attempt (.httpOk none)] by simp [callAux, hkr]] at h
          simp [hsingle] at h
    | http code =>
      by_cases hc : (code == 503) = true
      · by_cases hkr : k < r
        · rw [show (callAux prompt r k (ApiOutcome.http code :: rest)).1 =
              .attempt (.http code) :: .sleep 3 :: (callAux prompt r (k + 1) rest).1 by
                simp [callAux, hc, hkr]] at h
          rw [houts, hsleep] at h
          rcases dropLast_cons_mem h with he | hm
          · subst he; simp [retriable, hc]
          · exact ih (k + 1) o' hm
        · rw [show (callAux prompt r k (ApiOutcome.http code :: rest)).1 =
              [.attempt (.http code)] by simp [callAux, hc, hkr]] at h
          simp [hsingle] at h
      · rw [show (callAux prompt r k (ApiOutcome.http code :: rest)).1 =
            [.attempt (.http code)] by simp [callAux, hc]] at h
        simp [hsingle] at h
    | timeout =>
      by_cases hkr : k < r
      · rw [show (callAux prompt r k (ApiOutcome.timeout :: rest)).1 =
            .attempt .timeout :: .sleep 1 :: (callAux prompt r (k + 1) rest).1 by
              simp [callAux, hkr]] at h
        rw [houts, hsleep] at h
        rcases dropLast_cons_mem h with he | hm
        · subst he; simp [retriable]
        · exact ih (k + 1) o' hm
      · rw [show (callAux prompt r k (ApiOutcome.timeout :: rest)).1 =
            [.attempt .timeout] by simp [callAux, hkr]] at h
        simp [hsingle] at h
    | exn =>
      by_cases hkr : k < r
      · rw [show (callAux prompt r k (ApiOutcome.exn :: rest)).1 =
            .attempt .exn :: .sleep 1 :: (callAux prompt r (k + 1) rest).1 by
              simp [callAux, hkr]] at h
        rw [houts, hsleep] at h
        rcases dropLast_cons_mem h with he | hm
        · subst he; simp [retriable]
        · exact ih (k + 1) o' hm
      · rw [show (callAux prompt r k (ApiOutcome.exn :: rest)).1 =
            [.attempt .exn] by simp [callAux, hkr]] at h
        simp [hsingle] at h

/-- C4 (amended): the call performs at most 3 total attempts for any
interleaving of failures, and every attempt except the last follows an
outcome the loop treats as retriable — a timeout, an HTTP 503, an unexpected
exception, or a 200 reply with malformed or unusable text; the last two
causes are not in the claim's list, and the 200-with-unusable-text retry is
not preceded by any back-off sleep. -/
theorem api_retry_policy (token : Bool) (m : String) (outcomes : List ApiOutcome) :
    attemptCount (call_huggingface_api token m outcomes).1 ≤ 3 ∧
    ∀ o ∈ (attemptOutcomes (call_huggingface_api token m outcomes).1).dropLast,
      retriable (buildPrompt m) o = true := by
  unfold call_huggingface_api
  split_ifs with h
  · constructor
    · simpa using callAux_attemptCount_le (buildPrompt m) 2 outcomes 0 (by omega)
    · exact callAux_dropLast_retriable (buildPrompt m) 2 outcomes 0
  · simp [attemptCount, attemptOutcomes]

/-- Witness for C4's amended theorem on a concrete three-outcome script. -/
theorem api_retry_policy_witness :
    attemptCount (call_huggingface_api true "hi"
      [.timeout, .http 503,
       .httpOk (some "I hear you, and I am here with you today.")]).1 ≤ 3 ∧
    retriable (buildPrompt "hi") .timeout = true :=
  ⟨(api_retry_policy true "hi"
      [.timeout, .http 503,
       .httpOk (some "I hear you, and I am here with you today.")]).1,
   (api_retry_policy true "hi"
      [.timeout, .http 503,
       .httpOk (some "I hear you, and I am here with you today.")]).2
      .timeout (by decide)⟩

/-- Counterexample to C4 as stated: after a 200 response with unusable text —
neither a timeout nor a 503 — the loop performs a second attempt, and no
back-off sleep appears in the trace. -/
theorem api_retry_after_200_counterexample :
    (callAux (buildPrompt "hi") 2 0
      [.httpOk (some ""), .httpOk (some "I hear you, and I am here with you today.")]).1 =
    [.attempt (.httpOk (some "")),
     .attempt (.httpOk (some "I hear you, and I am here with you today."))] := by decide

/-- C5 (amended): on any HTTP status other than 200 and 503 the loop breaks
immediately — a single attempt and the empty result — but an unexpected
non-timeout exception is retried like a timeout (after a 1-second sleep)
while budget remains, rather than abandoning the call. -/
theorem api_other_status_abandons (prompt : String) (r k c : Nat) (os : List ApiOutcome)
    (_h200 : c ≠ 200) (h503 : c ≠ 503) :
    callAux prompt r k (.http c :: os) = ([.attempt (.http c)], []) ∧
    (k < r →
      callAux prompt r k (.exn :: os) =
        (.attempt .exn :: .sleep 1 :: (callAux prompt r (k + 1) os).1,
         (callAux prompt r (k + 1) os).2)) := by
  constructor
  · have hc : (c == 503) = false := by simp [h503]
    simp [callAux, hc]
  · intro hk
    simp [callAux, hk]

/-- Witness for C5's amended theorem at status 404 and an exception on the
first attempt. -/
theorem api_other_status_abandons_witness :
    callAux (buildPrompt "hi") 2 0 [.http 404] = ([.attempt (.http 404)], []) ∧
    callAux (buildPrompt "hi") 2 0 [.exn] =
      (.attempt .exn :: .sleep 1 :: (callAux (buildPrompt "hi") 2 1 []).1,
       (callAux (buildPrompt "hi") 2 1 []).2) :=
  ⟨(api_other_status_abandons (buildPrompt "hi") 2 0 404 [] (by decide) (by decide)).1,
   (api_other_status_abandons (buildPrompt "hi") 2 0 404 [] (by decide) (by decide)).2
     (by decide)⟩

/-- Counterexample to C5 as stated: after an unexpected non-timeout exception
the call does not abandon — it performs a second attempt and can return a
non-empty result. -/
theorem api_exception_retried_counterexample :
    attemptCount (callAux (buildPrompt "hi") 2 0
      [.exn, .httpOk (some "Thank you for sharing that with me today.")]).1 = 2 ∧
    (callAux (buildPrompt "hi") 2 0
      [.exn, .httpOk (some "Thank you for sharing that with me today.")]).2 ≠ [] := by decide

/-- C6 (amended): a 200 response whose text, after stripping the echoed
prompt, fails the minimum-length gate contributes no result; on the final
attempt the call returns empty, but on an earlier attempt the loop proceeds
to a further attempt (with no back-off sleep) instead of stopping. -/
theorem api_degenerate_200_policy (prompt raw : String) (r k : Nat) (os : List ApiOutcome)
    (h : usableText prompt raw = false) :
    (¬ k < r →
      callAux prompt r k (.httpOk (some raw) :: os) = ([.attempt (.httpOk (some raw))], [])) ∧
    (k < r →
      callAux prompt r k (.httpOk (some raw) :: os) =
        (.attempt (.httpOk (some raw)) :: (callAux prompt r (k + 1) os).1,
         (callAux prompt r (k + 1) os).2)) := by
  constructor <;> intro hk <;> simp [callAux, h, hk]

/-- Witness for C6's amended theorem with an empty generated text, at the
final and at the first attempt. -/
theorem api_degenerate_200_policy_witness :
    callAux (buildPrompt "hey") 2 2 [.httpOk (some "")] =
      ([.attempt (.httpOk (some ""))], []) ∧
    callAux (buildPrompt "hey") 2 0 [.httpOk (some "")] =
      (.attempt (.httpOk (some "")) :: (callAux (buildPrompt "hey") 2 1 []).1,
       (callAux (buildPrompt "hey") 2 1 []).2) :=
  ⟨(api_degenerate_200_policy (buildPrompt "hey") "" 2 2 [] (by decide)).1 (by omega),
   (api_degenerate_200_policy (buildPrompt "hey") "" 2 0 [] (by decide)).2 (by omega)⟩

/-- Counterexample to C6 as stated: a 200 reply whose cleaned text is below
the length threshold is followed by a further attempt, which can succeed. -/
theorem api_degenerate_200_retries_counterexample :
    attemptCount (callAux (buildPrompt "hey") 2 0
      [.httpOk (some "ok"),
       .httpOk (some "That sounds really hard, and I am glad you told me.")]).1 = 2 ∧
    (callAux (buildPrompt "hey") 2 0
      [.httpOk (some "ok"),
       .httpOk (some "That sounds really hard, and I am glad you told me.")]).2 ≠ [] := by decide

/-- C9: greeting detection is case-insensitive substring containment, so any
message whose lowered text contains a greeting string anywhere — also inside
another word — takes the greeting branch of the fallback tree with tool
`warm_greeting`, whatever emotions were detected, preempting every
emotion-specific, gratitude and check-in branch; and on a non-crisis message
the whole degraded-mode pipeline reports that tool. -/
theorem greeting_substring_preempts (m : String) (em : List String)
    (hg : greetingCond m = true) :
    rule_based_response m em = greetingResponse ∧
    (detect_crisis m = false → (get_ai_response false [] m).2.1 = "warm_greeting") := by
  constructor
  · unfold rule_based_response
    simp [hg]
  · intro hc
    unfold get_ai_response
    simp [stream, parse_response, hc, generate_response, rule_based_response, hg,
      greetingResponse]

/-- Witness for C9 at the message `"nothing"`, which contains the greeting
string `"hi"` inside a word and is classified with no emotion of its own. -/
theorem greeting_substring_preempts_witness :
    greetingCond "nothing" = true ∧
    detect_crisis "nothing" = false ∧
    rule_based_response "nothing" ["depression"] = greetingResponse ∧
    (get_ai_response false [] "nothing").2.1 = "warm_greeting" :=
  ⟨by decide, by decide,
   (greeting_substring_preempts "nothing" ["depression"] (by decide)).1,
   (greeting_substring_preempts "nothing" ["depression"] (by decide)).2 (by decide)⟩

theorem containsSub_append_self (needle t : List Char) :
    containsSub needle (needle ++ t) = true := by
  cases hn : needle ++ t with
  | nil =>
    have hne : needle = [] := (List.append_eq_nil.mp hn).1
    simp [containsSub, hne]
  | cons c rest =>
    rw [containsSub, ← hn]
    simp [List.isPrefixOf_iff_prefix]

theorem containsSub_cons (needle : List Char) (c : Char) (hay : List Char)
    (h : containsSub needle hay = true) : containsSub needle (c :: hay) = true := by
  rw [containsSub]
  simp [h]

theorem containsSub_of_infix {needle hay : List Char} (h : needle <:+: hay) :
    containsSub needle hay = true := by
  obtain ⟨s, t, rfl⟩ := h
  induction s with
  | nil => simpa using containsSub_append_self needle t
  | cons c s' ih => simpa using containsSub_cons needle c _ (by simpa using ih)

theorem infix_pyJoin {x : List Char} {l : List (List Char)} (sep : List Char) (h : x ∈ l) :
    x <:+: pyJoin sep l := by
  induction l with
  | nil => simp at h
  | cons y ys ih =>
    rcases List.mem_cons.mp h with he | hm
    · subst he
      cases ys with
      | nil => simp [pyJoin]
      | cons z zs =>
        exact ⟨[], sep ++ pyJoin sep (z :: zs), by simp [pyJoin]⟩
    · cases ys with
      | nil => simp at hm
      | cons z zs =>
        obtain ⟨s, t, hst⟩ := ih hm
        refine ⟨y ++ sep ++ s, t, ?_⟩
        simp only [pyJoin]
        rw [← hst]
        simp [List.append_assoc]

theorem pyJoin_cons_ne_nil {sep x : List Char} (l : List (List Char)) (hx : x ≠ []) :
    pyJoin sep (x :: l) ≠ [] := by
  cases l with
  | nil => simpa [pyJoin] using hx
  | cons y ys => simp [pyJoin, hx]

theorem strategies_lookup_text_nonempty (e : String)
    (h : (strategies_lookup e).isSome = true) :
    ((strategies_lookup e).getD "").isEmpty = false := by
  unfold strategies_lookup strategies at h ⊢
  by_cases h1 : (("anxiety" : String) == e) = true
  · simp [List.find?, h1]
    decide
  by_cases h2 : (("depression" : String) == e) = true
  · simp [List.find?, h1, h2]
    decide
  by_cases h3 : (("anger" : String) == e) = true
  · simp [List.find?, h1, h2, h3]
    decide
  by_cases h4 : (("stress" : String) == e) = true
  · simp [List.find?, h1, h2, h3, h4]
    decide
  by_cases h5 : (("loneliness" : String) == e) = true
  · simp [List.find?, h1, h2, h3, h4, h5]
    decide
  by_cases h6 : (("grief" : String) == e) = true
  · simp [List.find?, h1, h2, h3, h4, h5, h6]
    decide
  by_cases h7 : (("confusion" : String) == e) = true
  · simp [List.find?, h1, h2, h3, h4, h5, h6, h7]
    decide
  · simp [List.find?, h1, h2, h3, h4, h5, h6, h7] at h

/-- C8 (amended): on the empty label list `get_coping_strategies` returns the
fixed generic self-care sentence; on a non-empty list of catalog labels it
returns a non-empty string that contains each label's configured technique
text — but the texts are joined in input-list order (catalog order only when
the input was produced in catalog order, as `detect_emotions` does), labels
absent from the catalog being skipped. -/
theorem coping_strategies_behavior :
    get_coping_strategies [] = generic_self_care ∧
    ∀ emotions : List String,
      (∀ e ∈ emotions, (strategies_lookup e).isSome = true) → emotions ≠ [] →
      get_coping_strategies emotions ≠ "" ∧
      ∀ e ∈ emotions,
        containsSub ((strategies_lookup e).getD "").data
          (get_coping_strategies emotions).data = true := by
  refine ⟨rfl, fun emotions h1 h2 => ?_⟩
  have hfilt : (emotions.filter fun e => (strategies_lookup e).isSome) = emotions :=
    List.filter_eq_self.mpr h1
  have htexts : ∀ s ∈ emotions.map fun e => (strategies_lookup e).getD "",
      (!s.isEmpty) = true := by
    intro s hs
    obtain ⟨e, he, rfl⟩ := List.mem_map.mp hs
    simp [strategies_lookup_text_nonempty e (h1 e he)]
  have hfilt2 : ((emotions.map fun e => (strategies_lookup e).getD "").filter
      fun s => !s.isEmpty) = emotions.map fun e => (strategies_lookup e).getD "" :=
    List.filter_eq_self.mpr htexts
  have hemp : emotions.isEmpty = false := by
    cases emotions with
    | nil => exact absurd rfl h2
    | cons a l => rfl
  have hval : get_coping_strategies emotions =
      String.mk (pyJoin " ".data
        ((emotions.map fun e => (strategies_lookup e).getD "").map String.data)) := by
    unfold get_coping_strategies
    rw [hemp, hfilt, hfilt2]
    rfl
  constructor
  · rw [hval]
    cases hm : emotions with
    | nil => exact absurd hm h2
    | cons e0 rest =>
      apply str_ne_empty_of_data
      show pyJoin _ _ ≠ []
      rw [hm] at h1
      have h0 : (!((strategies_lookup e0).getD "").isEmpty) = true := by
        simp [strategies_lookup_text_nonempty e0 (h1 e0 (by simp))]
      simp only [List.map_cons]
      apply pyJoin_cons_ne_nil
      intro hd
      have hz : (strategies_lookup e0).getD "" = "" := String.ext (by simpa using hd)
      rw [hz] at h0
      exact absurd h0 (by decide)
  · intro e he
    rw [hval]
    show containsSub _ (pyJoin _ _) = true
    apply containsSub_of_infix
    apply infix_pyJoin
    exact List.mem_map.mpr ⟨(strategies_lookup e).getD "",
      List.mem_map.mpr ⟨e, he, rfl⟩, rfl⟩

/-- Witness for C8's amended theorem on the label list
`["anxiety", "stress"]`. -/
theorem coping_strategies_behavior_witness :
    get_coping_strategies ["anxiety", "stress"] ≠ "" ∧
    containsSub ((strategies_lookup "anxiety").getD "").data
      (get_coping_strategies ["anxiety", "stress"]).data = true :=
  ⟨(coping_strategies_behavior.2 ["anxiety", "stress"] (by decide) (by decide)).1,
   (coping_strategies_behavior.2 ["anxiety", "stress"] (by decide) (by decide)).2
     "anxiety" (by decide)⟩

/-- Counterexample to C8 as stated: on the label set {anxiety, depression}
presented in the order `["depression", "anxiety"]`, the code joins the
technique texts in input order, which differs from the catalog-order join the
claim describes. -/
theorem coping_catalog_order_counterexample :
    get_coping_strategies ["depression", "anxiety"] ≠
      advise_spec ["depression", "anxiety"] := by decide

/-- C3: the fallback tree equals first-match-wins evaluation of the spec's
ordered category list — greeting, then the anxiety, depression, stress,
loneliness emotion matches, then gratitude, then check-in, then the default
empathetic-listening reply — the first matching category supplying both
response text and tool tag; and the input `"hello"` in degraded mode yields
the warm-greeting tag with a welcoming phrase and none of the coping texts. -/
theorem fallback_tree_first_match :
    (∀ m em, rule_based_response m em = fallback_spec m em) ∧
    rule_based_response "hello" (detect_emotions "hello") = greetingResponse ∧
    pyIn "welcome" (lowerData greetingResponse.response) = true ∧
    (strategies.all fun p =>
      !containsSub p.2.data greetingResponse.response.data) = true ∧
    (get_ai_response false [] "hello").2.1 = "warm_greeting" := by
  refine ⟨fun m em => ?_, by decide, by decide, by decide, by decide⟩
  unfold rule_based_response fallback_spec fallback_categories
  cases h1 : greetingCond m <;>
  cases h2 : anxietyCond m em <;>
  cases h3 : depressionCond m em <;>
  cases h4 : stressCond m em <;>
  cases h5 : lonelinessCond m em <;>
  cases h6 : gratitudeCond m <;>
  cases h7 : checkinCond m <;>
  simp [List.find?, h1, h2, h3, h4, h5, h6, h7]

end SafeSpace
